import Mathlib

/-!
Verification of the SSE + JSON-RPC client (`MCPClient` in
`tests/mcp-funcn-app-test.py`).  The client discovers a per-session write
endpoint over a server-sent-event stream, then issues correlated JSON-RPC
requests over HTTP POST, resolving each call via the matching response
observed on the stream.

The embedding is shallow: JSON values are an inductive type, the mutable
client fields become an explicit `ClientState`, the two library calls
(`json.loads`, `urllib.parse.urljoin`) are modelled at the boundary
(`json.loads` as an `Option Json` input to the dispatcher, `urljoin` as an
executable function restricted to the URL shapes this client produces), and
the external world seen by one `_rpc` invocation (HTTP status of the POST,
whether the listener delivered the correlated response before the wait
expired) is an explicit environment record.
-/

/-- JSON values, as produced by the Python `json.loads`: `null`, booleans,
numbers, strings, arrays, and objects (ordered key/value lists; `json.loads`
never produces duplicate keys). -/
inductive Json where
  | null : Json
  | bool : Bool → Json
  | num : Int → Json
  | str : String → Json
  | arr : List Json → Json
  | obj : List (String × Json) → Json

/-- Key lookup in a JSON object: `some v` when the value is an object with
key `k` bound to `v`, `none` otherwise.  `(j.lookupKey k).isSome` models the
Python guard `isinstance(obj, dict) and k in obj`. -/
def Json.lookupKey (j : Json) (k : String) : Option Json :=
  match j with
  | .obj fields => fields.lookup k
  | _ => none

/-- The Python call `d.get(k, default)` on a JSON object (the source only applies it
to values that are dictionaries in every exercised path). -/
def Json.getD (j : Json) (k : String) (d : Json) : Json :=
  match j.lookupKey k with
  | some v => v
  | none => d

/-- Structural prefix test on character lists (used so that all string
computations reduce in the kernel). -/
def charsPrefixOf : List Char → List Char → Bool
  | [], _ => true
  | _ :: _, [] => false
  | a :: as, b :: bs => a == b && charsPrefixOf as bs

/-- Occurrence test: does `pat` occur as a contiguous run inside `s`?
Models the Python test `pat in s` on strings (for nonempty `pat`). -/
def charsContains (pat : List Char) : List Char → Bool
  | [] => charsPrefixOf pat []
  | c :: rest => charsPrefixOf pat (c :: rest) || charsContains pat rest

/-- The Python substring containment `pat in s`. -/
def strContains (s pat : String) : Bool :=
  charsContains pat.data s.data

/-- The characters of `s` strictly before the first occurrence of `pat`
(all of `s` when `pat` does not occur).  `String.mk` of this models
the Python `s.split(pat)[0]` for nonempty `pat`. -/
def charsTakeUntil (pat : List Char) : List Char → List Char
  | [] => []
  | c :: rest =>
      if charsPrefixOf pat (c :: rest) then []
      else c :: charsTakeUntil pat rest

/-- The characters of `s` strictly after the first occurrence of `pat`
(empty when `pat` does not occur). -/
def charsDropThrough (pat : List Char) : List Char → List Char
  | [] => []
  | c :: rest =>
      if charsPrefixOf pat (c :: rest) then (c :: rest).drop pat.length
      else charsDropThrough pat rest

/-- The Python `s.split(pat)[0]`: the prefix of `s` before the first
occurrence of `pat`, or all of `s` when `pat` is absent. -/
def splitFirst (s pat : String) : String :=
  String.mk (charsTakeUntil pat.data s.data)

/-- The `scheme://authority` part of an absolute http(s) URL. -/
def schemeAuthority (u : String) : String :=
  String.mk (charsTakeUntil "://".data u.data) ++ "://" ++
    String.mk (charsTakeUntil "/".data (charsDropThrough "://".data u.data))

/-- Modelled behaviour of `urllib.parse.urljoin`, restricted to the shapes
this client produces: the base is an absolute http(s) URL ending in a slash
and carrying no query, and the reference is either an absolute URL (kept as
is), an absolute-path reference (resolved against the base
scheme and authority), or a relative reference (appended to the base). -/
def urljoin (base url : String) : String :=
  if strContains url "://" then url
  else if charsPrefixOf "/".data url.data then schemeAuthority base ++ url
  else base ++ url

/-- `MCPClient._qualify_endpoint`: resolve a discovered raw endpoint against
the base stream URL, appending the function key as a `code=` query parameter
when a key is configured and the endpoint does not already carry one.
`function_key = some ""` and `function_key = none` both fail the Python
truthiness test `if self.function_key`. -/
def qualify_endpoint (base_sse_url : String) (function_key : Option String)
    (endpoint : String) : String :=
  let base := splitFirst base_sse_url "/sse"
  let endpoint1 :=
    match function_key with
    | some key =>
        if key != "" && !(strContains endpoint "code=") then
          endpoint ++ (if strContains endpoint "?" then "&" else "?") ++ "code=" ++ key
        else endpoint
    | none => endpoint
  urljoin (base ++ "/") endpoint1

/-- One pending-request holder, `{"event": evt}` in the source: the
completion event plus the eventual response.  Entries still in the table
always have `response = none` — the listener pops the entry before storing
the response into the (shared) holder; that delivery is recorded in the
`signals` log of the client state. -/
structure Holder where
  response : Option Json

/-- The mutable fields of an `MCPClient` instance.  `pending` models the
`self._pending : dict[str, dict]` table (insertion-ordered, unique keys);
`signals` is the observation log of waiter completions
(`waiter["response"] = obj; waiter["event"].set()`), recording which waiter
was signalled with which response. -/
structure ClientState where
  base_sse_url : String
  function_key : Option String
  write_url : Option String
  pending : List (String × Holder)
  signals : List (String × Json)

/-- Python dict assignment `p[k] = v`: replace in place when the key exists,
append otherwise. -/
def dictInsert (p : List (String × Holder)) (k : String) (v : Holder) :
    List (String × Holder) :=
  if p.any (fun e => e.1 == k) then
    p.map (fun e => if e.1 == k then (k, v) else e)
  else p ++ [(k, v)]

/-- Python `p.pop(k, None)`: the removed value (if any) and the remaining
table. -/
def dictPop (p : List (String × Holder)) (k : String) :
    Option Holder × List (String × Holder) :=
  (p.lookup k, p.filter (fun e => e.1 != k))

/-- Number of entries for a given correlation id in the pending table
(0 or 1 in every reachable state). -/
def countId : List (String × Holder) → String → Nat
  | [], _ => 0
  | e :: p, rid => (if e.1 == rid then 1 else 0) + countId p rid

/-- A JSON-RPC `id` value as a key of the pending table: issued ids are
uuid strings, so a non-string JSON id never equals any key of the Python
dict and its `pop` returns the default. -/
def jsonIdKey : Json → Option String
  | .str s => some s
  | _ => none

/-- The JSON-RPC response branch of `MCPClient._handle_sse_event`: for a
parsed payload carrying an `id` key, pop the waiter registered under that id
(issued ids are uuid strings, so a non-string id finds nothing); when a
waiter is found, deliver the response to it and signal completion. -/
def dispatch_response (s : ClientState) (obj : Json) : ClientState :=
  match obj.lookupKey "id" with
  | some idv =>
      match jsonIdKey idv with
      | some rid =>
          match dictPop s.pending rid with
          | (some _, rest) =>
              { s with pending := rest, signals := s.signals ++ [(rid, obj)] }
          | (none, _) => s
      | none => s
  | none => s

/-- The guard of the first branch of `_handle_sse_event`:
`event == "endpoint" and data and self.write_url is None` (a nonempty string
is truthy). -/
def isBareEndpoint (s : ClientState) (event : Option String) (data : String) : Bool :=
  event == some "endpoint" && data != "" && s.write_url.isNone

/-- The string value under the `endpoint` key of a parsed payload, when the
payload is an object carrying one (the source assumes the value is a string —
a non-string value would raise inside `_qualify_endpoint`). -/
def endpointStrValue (obj : Json) : Option String :=
  match obj.lookupKey "endpoint" with
  | some (Json.str e) => some e
  | _ => none

/-- The parsed-payload part of `_handle_sse_event`: JSON-embedded endpoint
discovery while no write endpoint is known, otherwise JSON-RPC response
correlation. -/
def handle_json (s : ClientState) (obj : Json) : ClientState :=
  match s.write_url with
  | none =>
      match endpointStrValue obj with
      | some e =>
          { s with write_url := some (qualify_endpoint s.base_sse_url s.function_key e) }
      | none => dispatch_response s obj
  | some _ => dispatch_response s obj

/-- `MCPClient._handle_sse_event`.  `data` is the raw payload text and
`parsed` is the outcome of `json.loads(data)` (`none` for
`json.JSONDecodeError`, which the source catches and ignores).  The branches
mirror the source in order: bare `endpoint` event (only while no write
endpoint is known), then the parsed-payload dispatch of `handle_json`. -/
def handle_sse_event (s : ClientState) (event : Option String) (data : String)
    (parsed : Option Json) : ClientState :=
  if isBareEndpoint s event data then
    { s with write_url := some (qualify_endpoint s.base_sse_url s.function_key data) }
  else
    match parsed with
    | none => s
    | some obj => handle_json s obj

/-- The external world seen by one `_rpc` invocation: the HTTP status and
body text of the POST to the write endpoint, and the correlated response
delivered by the background listener before `evt.wait(self.timeout)`
expired (`none` when no matching response arrived in time). -/
structure RpcEnv where
  postStatus : Nat
  postText : String
  response : Option Json

/-- The four raise sites of `_rpc`.  In the source all four raise the single
exception class `MCPClientError`; the constructors record which site raised
and the payload it carried. -/
inductive RpcError where
  | notConnected : RpcError
  | transportError : Nat → String → RpcError
  | rpcTimeout : String → RpcError
  | remoteError : Json → RpcError

/-- The observable outcome of one `_rpc` invocation: the returned value or
raised error, the client state afterwards, and the HTTP POSTs issued
(target URL and JSON-RPC payload). -/
structure RpcRun where
  result : Except RpcError Json
  state : ClientState
  posts : List (String × Json)

/-- The Python `params or {}` (both `None` and the empty dict are falsy and
yield `{}`, so `none` maps to the empty object). -/
def paramsOrEmpty : Option Json → Json
  | some p => p
  | none => Json.obj []

/-- The JSON-RPC 2.0 request envelope `_rpc` serialises and POSTs. -/
def rpcPayload (rid method : String) (params : Option Json) : Json :=
  Json.obj [( "jsonrpc", Json.str "2.0"), ( "id", Json.str rid),
            ( "method", Json.str method), ( "params", paramsOrEmpty params)]

/-- The client state right after `_rpc` registers its pending holder
(`self._pending[rid] = holder`). -/
def registeredState (s : ClientState) (rid : String) : ClientState :=
  { s with pending := dictInsert s.pending rid (Holder.mk none) }

/-- The client state after the wait of `_rpc` ends without a correlated
response: the caller pops its own entry (`self._pending.pop(rid, None)`). -/
def timedOutState (s : ClientState) (rid : String) : ClientState :=
  { registeredState s rid with
      pending := (dictPop (registeredState s rid).pending rid).2 }

/-- The client state after the listener resolves the call: it popped the
entry, stored the response into the shared holder and signalled the waiting
caller. -/
def resolvedState (s : ClientState) (rid : String) (resp : Json) : ClientState :=
  { registeredState s rid with
      pending := (dictPop (registeredState s rid).pending rid).2,
      signals := (registeredState s rid).signals ++ [(rid, resp)] }

/-- The tail of `_rpc` after the listener has delivered the correlated
response: raise `MCPClientError(result["error"])` when the response carries
an `error` field, otherwise return the whole response object. -/
def rpc_deliver (s : ClientState) (url rid method : String) (params : Option Json)
    (resp : Json) : RpcRun :=
  match resp.lookupKey "error" with
  | some err =>
      { result := Except.error (RpcError.remoteError err),
        state := resolvedState s rid resp,
        posts := [(url, rpcPayload rid method params)] }
  | none =>
      { result := Except.ok resp,
        state := resolvedState s rid resp,
        posts := [(url, rpcPayload rid method params)] }

/-- The body of `_rpc` once the write endpoint is known, in source order:
register the pending holder under `rid`, POST the envelope, raise on HTTP
status >= 400 (entry left registered), raise on wait timeout (entry popped
by the caller), otherwise the listener has resolved the call and the caller
raises on an `error` field or returns the whole response object. -/
def rpc_connected (s : ClientState) (url rid method : String) (params : Option Json)
    (env : RpcEnv) : RpcRun :=
  if env.postStatus ≥ 400 then
    { result := Except.error (RpcError.transportError env.postStatus env.postText),
      state := registeredState s rid,
      posts := [(url, rpcPayload rid method params)] }
  else
    match env.response with
    | none =>
        { result := Except.error (RpcError.rpcTimeout method),
          state := timedOutState s rid,
          posts := [(url, rpcPayload rid method params)] }
    | some resp => rpc_deliver s url rid method params resp

/-- `MCPClient._rpc`.  `rid` stands for the generated `str(uuid.uuid4())`
correlation id (uuid freshness appears as a hypothesis where a theorem needs
it).  With no write endpoint discovered the call raises immediately, before
generating an id, registering an entry or issuing any POST; otherwise it
proceeds as `rpc_connected`. -/
def rpc (s : ClientState) (rid : String) (method : String) (params : Option Json)
    (env : RpcEnv) : RpcRun :=
  match s.write_url with
  | none => { result := Except.error RpcError.notConnected, state := s, posts := [] }
  | some url => rpc_connected s url rid method params env

/-- The stream behaviour seen by one `connect` invocation: the elapsed time
(in abstract time units) at which the background listener first records a
write endpoint, together with the raw endpoint payload it qualified —
`none` when the stream never delivers a discovery event. -/
structure ConnectEnv where
  endpointEvent : Option (Nat × String)

/-- The raise site of `connect`: `TimeoutError("Did not receive session
write endpoint via SSE handshake")`. -/
inductive ConnectError where
  | handshakeTimeout : ConnectError

/-- `MCPClient.connect`: start the listener, then poll `self.write_url`
until it is set or `handshake_timeout` elapses, raising when it is still
`None`.  The busy-wait is abstracted to discrete time: discovery strictly
within the window unblocks the caller with the qualified endpoint recorded;
otherwise the handshake raises. -/
def connect (s : ClientState) (handshake_timeout : Nat) (env : ConnectEnv) :
    Except ConnectError ClientState :=
  match env.endpointEvent with
  | some (t, e) =>
      if t < handshake_timeout then
        Except.ok { s with write_url := some (qualify_endpoint s.base_sse_url s.function_key e) }
      else Except.error ConnectError.handshakeTimeout
  | none => Except.error ConnectError.handshakeTimeout

/-- `MCPClient.initialize`: an `_rpc` call with method `initialize` and the
protocol/capabilities/client-identity parameters. -/
def initialize_rpc (s : ClientState) (rid : String) (protocol_version client_name client_version : String)
    (env : RpcEnv) : RpcRun :=
  rpc s rid "initialize" (some (Json.obj
    [( "protocolVersion", Json.str protocol_version), ( "capabilities", Json.obj []),
     ( "client", Json.obj [( "name", Json.str client_name), ( "version", Json.str client_version)])])) env

/-- `MCPClient.list_tools`: `_rpc("tools/list", {})`, then
`resp.get("result", {}).get("tools", [])` on the returned response
object. -/
def list_tools (s : ClientState) (rid : String) (env : RpcEnv) :
    Except RpcError Json × ClientState :=
  let run := rpc s rid "tools/list" (some (Json.obj [])) env
  match run.result with
  | Except.ok resp =>
      (Except.ok ((resp.getD "result" (Json.obj [])).getD "tools" (Json.arr [])), run.state)
  | Except.error e => (Except.error e, run.state)

/-- `MCPClient.call_tool`: `_rpc("tools/call", ...)`, then
`resp.get("result", {}).get("content", [])`. -/
def call_tool (s : ClientState) (rid : String) (name : String) (arguments : Json)
    (env : RpcEnv) : Except RpcError Json × ClientState :=
  let run := rpc s rid "tools/call"
    (some (Json.obj [( "name", Json.str name), ( "arguments", arguments)])) env
  match run.result with
  | Except.ok resp =>
      (Except.ok ((resp.getD "result" (Json.obj [])).getD "content" (Json.arr [])), run.state)
  | Except.error e => (Except.error e, run.state)

/-- The loop inside `MCPClient.search`: the `data` of the first content
block whose `type` is the string `"json"`, if any (`block.get` defaults
model the Python `None` as `Json.null`). -/
def firstJsonBlock : List Json → Option Json
  | [] => none
  | b :: rest =>
      match b.getD "type" Json.null with
      | Json.str t => if t == "json" then some (b.getD "data" Json.null) else firstJsonBlock rest
      | _ => firstJsonBlock rest

/-- `MCPClient.search`: `call_tool("search", ...)`, returning the `data` of the
first json-typed block when present, otherwise the whole content list
(the content is a list in every exercised path). -/
def search (s : ClientState) (rid : String) (query : String) (env : RpcEnv) :
    Except RpcError Json × ClientState :=
  match call_tool s rid "search" (Json.obj [( "query", Json.str query)]) env with
  | (Except.ok content, st) =>
      match content with
      | Json.arr blocks =>
          match firstJsonBlock blocks with
          | some d => (Except.ok d, st)
          | none => (Except.ok content, st)
      | _ => (Except.ok content, st)
  | (Except.error e, st) => (Except.error e, st)

/-- One dispatched server-sent event: the `event:` field value, the joined
`data:` payload, and the outcome of `json.loads` on that payload. -/
structure SSEEvent where
  event : Option String
  data : String
  parsed : Option Json

/-- Dispatch of one framed event, as the listener loop does. -/
def dispatch (s : ClientState) (e : SSEEvent) : ClientState :=
  handle_sse_event s e.event e.data e.parsed

/-- Dispatch of a sequence of framed events in stream order. -/
def dispatchAll (s : ClientState) (evs : List SSEEvent) : ClientState :=
  evs.foldl dispatch s

/-- The primitive operations that touch the pending table, from either
thread: an SSE dispatch by the listener, the registration step of `_rpc`
(`self._pending[rid] = holder`), and the timeout removal step of `_rpc`
(`self._pending.pop(rid, None)`).  Each runs under `self._lock`, so an
execution is an interleaving — a sequence — of these actions. -/
inductive ClientAction where
  | sse : SSEEvent → ClientAction
  | issue : String → ClientAction
  | timeoutPop : String → ClientAction

/-- Effect of one action on the client state. -/
def step (s : ClientState) : ClientAction → ClientState
  | ClientAction.sse e => dispatch s e
  | ClientAction.issue rid => { s with pending := dictInsert s.pending rid { response := none } }
  | ClientAction.timeoutPop rid => { s with pending := (dictPop s.pending rid).2 }

/-- Effect of a sequence of actions. -/
def steps (s : ClientState) (tr : List ClientAction) : ClientState :=
  tr.foldl step s

/-- Whether an action can remove the entry for correlation id `rid`: the
timeout pop for `rid`, or a dispatched JSON payload whose `id` field is the
string `rid`.  No other action pops `rid`. -/
def mayResolve (a : ClientAction) (rid : String) : Bool :=
  match a with
  | ClientAction.timeoutPop r => r == rid
  | ClientAction.issue _ => false
  | ClientAction.sse e =>
      match e.parsed with
      | some obj =>
          match obj.lookupKey "id" with
          | some idv =>
              match jsonIdKey idv with
              | some r => r == rid
              | none => false
          | none => false
      | none => false

/-- Whether a JSON id value has no entry in the pending table: issued keys
are strings, so a non-string id matches nothing. -/
def idAbsent (p : List (String × Holder)) : Json → Bool
  | Json.str r => countId p r == 0
  | _ => true

/-- Filtering a pop out of a nonempty table, one step. -/
theorem filter_pop_cons (k1 : String) (v1 : Holder) (p : List (String × Holder)) (k : String) :
    ((k1, v1) :: p).filter (fun e => e.1 != k) =
      if k1 == k then p.filter (fun e => e.1 != k)
      else (k1, v1) :: p.filter (fun e => e.1 != k) := by
  rcases hk : (k1 == k) with _ | _ <;> simp [List.filter, bne, hk]

/-- A table with no entry for a key has no match for the membership scan
that guards `dictInsert`. -/
theorem any_key_eq_false (p : List (String × Holder)) (rid : String)
    (h : countId p rid = 0) : p.any (fun e => e.1 == rid) = false := by
  induction p with
  | nil => rfl
  | cons e p ih =>
      rcases e with ⟨k, v⟩
      rcases hk : (k == rid) with _ | _
      · have h2 : countId p rid = 0 := by
          simp [countId, hk] at h
          exact h
        simp only [List.any_cons, hk, Bool.false_or]
        exact ih h2
      · simp [countId, hk] at h
  

/-- Entry counts add across table concatenation. -/
theorem countId_append (p q : List (String × Holder)) (rid : String) :
    countId (p ++ q) rid = countId p rid + countId q rid := by
  induction p with
  | nil => simp [countId]
  | cons e p ih => simp [countId, ih]; omega

/-- Replacing the value stored under a key changes no key, hence no count. -/
theorem countId_map_replace (p : List (String × Holder)) (k : String) (v : Holder)
    (rid : String) :
    countId (p.map (fun e => if e.1 == k then (k, v) else e)) rid = countId p rid := by
  induction p with
  | nil => rfl
  | cons e p ih =>
      rcases e with ⟨k1, v1⟩
      rcases hk : (k1 == k) with _ | _
      · simp only [List.map_cons, countId]
        rw [ih]
        simp [hk]
      · have hk1 : k1 = k := by simpa using hk
        simp only [List.map_cons, countId]
        rw [ih]
        simp [hk, hk1]

/-- Registering a fresh correlation id yields exactly one entry for it. -/
theorem countId_dictInsert_fresh (p : List (String × Holder)) (rid : String) (v : Holder)
    (h : countId p rid = 0) : countId (dictInsert p rid v) rid = 1 := by
  unfold dictInsert
  rw [any_key_eq_false p rid h]
  simp [countId_append, h, countId]

/-- Registering one id leaves the count of every other id unchanged. -/
theorem countId_dictInsert_ne (p : List (String × Holder)) (k : String) (v : Holder)
    (rid : String) (h : k ≠ rid) : countId (dictInsert p k v) rid = countId p rid := by
  unfold dictInsert
  by_cases ha : p.any (fun e => e.1 == k) = true
  · rw [if_pos ha, countId_map_replace]
  · rw [if_neg ha, countId_append]
    have hkr : (k == rid) = false := by simpa using h
    simp [countId, hkr]

/-- Popping an id removes every entry for it. -/
theorem countId_dictPop_self (p : List (String × Holder)) (rid : String) :
    countId (dictPop p rid).2 rid = 0 := by
  induction p with
  | nil => rfl
  | cons e p ih =>
      rcases e with ⟨k, v⟩
      simp only [dictPop] at ih ⊢
      rw [filter_pop_cons]
      rcases hk : (k == rid) with _ | _
      · simp [hk, countId, ih]
      · simp [hk, ih]

/-- Popping one id leaves the count of every other id unchanged. -/
theorem countId_dictPop_ne (p : List (String × Holder)) (k : String) (rid : String)
    (h : k ≠ rid) : countId (dictPop p k).2 rid = countId p rid := by
  induction p with
  | nil => rfl
  | cons e p ih =>
      rcases e with ⟨k1, v1⟩
      simp only [dictPop] at ih ⊢
      rw [filter_pop_cons]
      rcases hk : (k1 == k) with _ | _
      · simp [hk, countId, ih]
      · have hk1 : k1 = k := by simpa using hk
        have hkr : (k1 == rid) = false := by
          rw [hk1]
          simpa using h
        simp [hk, countId, hkr, ih]

/-- Popping an id that has no entry leaves the table exactly as it was. -/
theorem dictPop_snd_of_absent (p : List (String × Holder)) (rid : String)
    (h : countId p rid = 0) : (dictPop p rid).2 = p := by
  induction p with
  | nil => rfl
  | cons e p ih =>
      rcases e with ⟨k, v⟩
      simp only [dictPop] at ih ⊢
      rw [filter_pop_cons]
      rcases hk : (k == rid) with _ | _
      · have h2 : countId p rid = 0 := by
          simp [countId, hk] at h
          exact h
        simp [hk, ih h2]
      · simp [countId, hk] at h

/-- An id with no entry is not found by the lookup side of a pop. -/
theorem lookup_eq_none_of_absent (p : List (String × Holder)) (rid : String)
    (h : countId p rid = 0) : p.lookup rid = none := by
  induction p with
  | nil => rfl
  | cons e p ih =>
      rcases e with ⟨k, v⟩
      rcases hk : (k == rid) with _ | _
      · have h2 : countId p rid = 0 := by
          simp [countId, hk] at h
          exact h
        have hk2 : (rid == k) = false := by
          simp at hk ⊢
          exact fun hh => hk hh.symm
        simp only [List.lookup, hk2]
        exact ih h2
      · simp [countId, hk] at h


/-- A lookup miss forces a zero entry count. -/
theorem countId_zero_of_lookup_none (p : List (String × Holder)) (rid : String)
    (h : p.lookup rid = none) : countId p rid = 0 := by
  induction p with
  | nil => rfl
  | cons e p ih =>
      rcases e with ⟨k, v⟩
      rcases hk : (rid == k) with _ | _
      · simp only [List.lookup, hk] at h
        have hk2 : (k == rid) = false := by
          simp at hk ⊢
          exact fun hh => hk hh.symm
        simp [countId, hk2, ih h]
      · simp only [List.lookup, hk] at h
        exact Option.noConfusion h

/-- The response branch never touches the discovered write endpoint. -/
theorem dispatch_response_write_url (s : ClientState) (obj : Json) :
    (dispatch_response s obj).write_url = s.write_url := by
  unfold dispatch_response
  cases hid : obj.lookupKey "id" with
  | none => rfl
  | some idv =>
      cases idv with
      | str r =>
          simp only [jsonIdKey, dictPop]
          cases hp : s.pending.lookup r with
          | none => rfl
          | some h => rfl
      | null => rfl
      | bool b => rfl
      | num n => rfl
      | arr xs => rfl
      | obj fs => rfl

/-- Case analysis of the response branch: either the state is untouched
(no `id` key, non-string id, or no waiting entry for the id), or the
waiting entry is popped and the waiter signalled with the response. -/
theorem dispatch_response_cases (s : ClientState) (obj : Json) :
    dispatch_response s obj = s
    ∨ (∃ r, obj.lookupKey "id" = some (Json.str r)
        ∧ (s.pending.lookup r).isSome = true
        ∧ dispatch_response s obj =
            { s with pending := (dictPop s.pending r).2,
                     signals := s.signals ++ [(r, obj)] }) := by
  unfold dispatch_response
  cases hid : obj.lookupKey "id" with
  | none => left; rfl
  | some idv =>
      cases idv with
      | str r =>
          simp only [jsonIdKey, dictPop]
          cases hp : s.pending.lookup r with
          | none => left; rfl
          | some h =>
              right
              exact ⟨r, rfl, by simp [hp], by simp [dictPop, hp]⟩
      | null => left; rfl
      | bool b => left; rfl
      | num n => left; rfl
      | arr xs => left; rfl
      | obj fs => left; rfl

/-- When a well-identified response arrives, either its waiting entry is
popped, or there was no waiting entry and the state is untouched. -/
theorem dispatch_response_pops (s : ClientState) (obj : Json) (rid : String)
    (hid : obj.lookupKey "id" = some (Json.str rid)) :
    (dispatch_response s obj).pending = (dictPop s.pending rid).2
    ∨ (dispatch_response s obj = s ∧ s.pending.lookup rid = none) := by
  unfold dispatch_response
  rw [hid]
  simp only [jsonIdKey, dictPop]
  cases hp : s.pending.lookup rid with
  | none => right; exact ⟨rfl, rfl⟩
  | some h => left; rfl

/-- Outside the endpoint-discovery branches, a dispatch is exactly the
response branch. -/
theorem handle_eq_dispatch (s : ClientState) (ev : Option String) (data : String) (obj : Json)
    (h1 : isBareEndpoint s ev data = false)
    (h2 : s.write_url = none → endpointStrValue obj = none) :
    handle_sse_event s ev data (some obj) = dispatch_response s obj := by
  unfold handle_sse_event
  rw [h1]
  simp only [Bool.false_eq_true, if_false]
  unfold handle_json
  cases hw : s.write_url with
  | some u => rfl
  | none => rw [h2 hw]

/-- When the JSON-embedded discovery branch fires, the dispatch records the
qualified endpoint and changes nothing else. -/
theorem handle_eq_set_endpoint (s : ClientState) (ev : Option String) (data : String) (obj : Json)
    (e : String)
    (h1 : isBareEndpoint s ev data = false)
    (hw : s.write_url = none)
    (he : endpointStrValue obj = some e) :
    handle_sse_event s ev data (some obj) =
      { s with write_url := some (qualify_endpoint s.base_sse_url s.function_key e) } := by
  unfold handle_sse_event
  rw [h1]
  simp only [Bool.false_eq_true, if_false]
  unfold handle_json
  rw [hw, he]

/-- When the bare `endpoint` discovery branch fires, the dispatch records
the qualified raw payload and changes nothing else. -/
theorem handle_eq_set_endpoint_bare (s : ClientState) (ev : Option String) (data : String)
    (parsed : Option Json)
    (h1 : isBareEndpoint s ev data = true) :
    handle_sse_event s ev data parsed =
      { s with write_url := some (qualify_endpoint s.base_sse_url s.function_key data) } := by
  unfold handle_sse_event
  rw [h1]
  simp only [if_true]

/-- A dispatched payload that was not consumed by a discovery branch and
carries no parseable JSON leaves the state untouched. -/
theorem handle_malformed (s : ClientState) (ev : Option String) (data : String)
    (h1 : isBareEndpoint s ev data = false) :
    handle_sse_event s ev data none = s := by
  unfold handle_sse_event
  rw [h1]
  simp only [Bool.false_eq_true, if_false]

/-- Case analysis of one full dispatch with respect to the pending table and
the signal log: either both are untouched, or the payload was a response
whose id had a waiting entry, which is popped and signalled. -/
theorem handle_effect (s : ClientState) (ev : Option String) (data : String)
    (parsed : Option Json) :
    ((handle_sse_event s ev data parsed).pending = s.pending
      ∧ (handle_sse_event s ev data parsed).signals = s.signals)
    ∨ (∃ r obj, parsed = some obj ∧ obj.lookupKey "id" = some (Json.str r)
        ∧ (s.pending.lookup r).isSome = true
        ∧ (handle_sse_event s ev data parsed).pending = (dictPop s.pending r).2
        ∧ (handle_sse_event s ev data parsed).signals = s.signals ++ [(r, obj)]) := by
  rcases hb : isBareEndpoint s ev data with _ | _
  · cases parsed with
    | none => rw [handle_malformed s ev data hb]; left; exact ⟨rfl, rfl⟩
    | some obj =>
        cases hw : s.write_url with
        | some u =>
            rw [handle_eq_dispatch s ev data obj hb (by intro h; rw [h] at hw; exact Option.noConfusion hw)]
            rcases dispatch_response_cases s obj with h | ⟨r, hid, hsome, heq⟩
            · rw [h]; left; exact ⟨rfl, rfl⟩
            · rw [heq]; right; exact ⟨r, obj, rfl, hid, hsome, rfl, rfl⟩
        | none =>
            cases he : endpointStrValue obj with
            | some e =>
                rw [handle_eq_set_endpoint s ev data obj e hb hw he]
                left; exact ⟨rfl, rfl⟩
            | none =>
                rw [handle_eq_dispatch s ev data obj hb (fun _ => he)]
                rcases dispatch_response_cases s obj with h | ⟨r, hid, hsome, heq⟩
                · rw [h]; left; exact ⟨rfl, rfl⟩
                · rw [heq]; right; exact ⟨r, obj, rfl, hid, hsome, rfl, rfl⟩
  · rw [handle_eq_set_endpoint_bare s ev data parsed hb]
    left; exact ⟨rfl, rfl⟩

/-- A dispatch can only change the write endpoint from undiscovered to
discovered, never away from a discovered value. -/
theorem handle_write_url_some (s : ClientState) (ev : Option String) (data : String)
    (parsed : Option Json) (u : String) (h : s.write_url = some u) :
    (handle_sse_event s ev data parsed).write_url = some u := by
  have hb : isBareEndpoint s ev data = false := by
    unfold isBareEndpoint
    rw [h]
    simp
  cases parsed with
  | none => rw [handle_malformed s ev data hb, h]
  | some obj =>
      rw [handle_eq_dispatch s ev data obj hb (by intro hh; rw [hh] at h; exact Option.noConfusion h)]
      rw [dispatch_response_write_url, h]

/-- C2: endpoint qualification.  With base stream URL
`https://host/sse?code=ABC` and no configured access token, the raw endpoint
`/messages?sessionId=42` resolves to `https://host/messages?sessionId=42`;
with a configured access token `XYZ`, the credential-free raw endpoint
`/messages` resolves to `https://host/messages?code=XYZ`; and a raw endpoint
already carrying `code=` is resolved without duplicating the credential. -/
theorem qualify_endpoint_resolution :
    qualify_endpoint "https://host/sse?code=ABC" none "/messages?sessionId=42"
        = "https://host/messages?sessionId=42"
    ∧ qualify_endpoint "https://host/sse?code=ABC" (some "XYZ") "/messages"
        = "https://host/messages?code=XYZ"
    ∧ qualify_endpoint "https://host/sse?code=ABC" (some "ABC") "/messages?sessionId=42&code=ABC"
        = "https://host/messages?sessionId=42&code=ABC" :=
  ⟨rfl, rfl, rfl⟩

/-- C8: a dispatched payload that is not a bare endpoint discovery event
(the first-branch guard is false) and whose data is not valid JSON
(`json.loads` fails, modelled as `parsed = none`) leaves the client state —
in particular the write endpoint and the pending table — exactly unchanged;
the dispatcher is a total function here, so no error is raised. -/
theorem malformed_event_ignored (s : ClientState) (ev : Option String) (data : String)
    (h : isBareEndpoint s ev data = false) :
    handle_sse_event s ev data none = s :=
  handle_malformed s ev data h

/-- Witness for C8 at a concrete non-JSON payload. -/
theorem malformed_event_ignored_witness :
    handle_sse_event (ClientState.mk "https://host/sse" none none [] [])
        (some "message") "not json" none
      = ClientState.mk "https://host/sse" none none [] [] :=
  malformed_event_ignored (ClientState.mk "https://host/sse" none none [] [])
    (some "message") "not json" rfl

/-- C6: dispatching a JSON-RPC response whose id has no entry in the pending
table removes no entry and signals no waiter: the pending table and the
signal log are left exactly as they were. -/
theorem unknown_id_response_dropped (s : ClientState) (ev : Option String) (data : String)
    (obj idv : Json)
    (hid : obj.lookupKey "id" = some idv)
    (habsent : idAbsent s.pending idv = true) :
    (handle_sse_event s ev data (some obj)).pending = s.pending
    ∧ (handle_sse_event s ev data (some obj)).signals = s.signals := by
  rcases handle_effect s ev data (some obj) with h | ⟨r, obj2, hpe, hid2, hsome, _, _⟩
  · exact h
  · exfalso
    injection hpe with hpe2
    subst hpe2
    rw [hid] at hid2
    injection hid2 with hid3
    subst hid3
    have h0 : countId s.pending r = 0 := by simpa [idAbsent] using habsent
    rw [lookup_eq_none_of_absent s.pending r h0] at hsome
    simp at hsome

/-- Witness for C6: a response for an id that was never issued leaves the
one pending entry and the empty signal log unchanged. -/
theorem unknown_id_response_dropped_witness :
    (handle_sse_event
        (ClientState.mk "https://host/sse" none (some "https://host/w")
          [( "a", Holder.mk none)] [])
        none "x" (some (Json.obj [( "id", Json.str "b")]))).pending
      = [( "a", Holder.mk none)]
    ∧ (handle_sse_event
        (ClientState.mk "https://host/sse" none (some "https://host/w")
          [( "a", Holder.mk none)] [])
        none "x" (some (Json.obj [( "id", Json.str "b")]))).signals
      = [] :=
  unknown_id_response_dropped
    (ClientState.mk "https://host/sse" none (some "https://host/w")
      [( "a", Holder.mk none)] [])
    none "x" (Json.obj [( "id", Json.str "b")]) (Json.str "b") rfl rfl

/-- C7: once a write endpoint has been recorded, no later dispatched event —
bare `endpoint` event or JSON payload — ever changes it: the first endpoint
discovered wins for the rest of the session. -/
theorem first_endpoint_wins (s : ClientState) (u : String) (evs : List SSEEvent)
    (h : s.write_url = some u) :
    (dispatchAll s evs).write_url = some u := by
  induction evs generalizing s with
  | nil => exact h
  | cons e evs ih =>
      simp only [dispatchAll, List.foldl_cons]
      exact ih (dispatch s e) (handle_write_url_some s e.event e.data e.parsed u h)

/-- Witness for C7: a recorded endpoint survives a later bare `endpoint`
event and a later JSON-embedded endpoint payload. -/
theorem first_endpoint_wins_witness :
    (dispatchAll (ClientState.mk "https://host/sse" none (some "https://host/w") [] [])
        [SSEEvent.mk (some "endpoint") "/other" none,
         SSEEvent.mk none "y" (some (Json.obj [( "endpoint", Json.str "/other2")]))]).write_url
      = some "https://host/w" :=
  first_endpoint_wins
    (ClientState.mk "https://host/sse" none (some "https://host/w") [] [])
    "https://host/w"
    [SSEEvent.mk (some "endpoint") "/other" none,
     SSEEvent.mk none "y" (some (Json.obj [( "endpoint", Json.str "/other2")]))]
    rfl

/-- With a discovered write endpoint, `_rpc` proceeds as its connected
body. -/
theorem rpc_eq_connected (s : ClientState) (url rid method : String) (params : Option Json)
    (env : RpcEnv) (h : s.write_url = some url) :
    rpc s rid method params env = rpc_connected s url rid method params env := by
  unfold rpc
  rw [h]

/-- With no discovered write endpoint, `_rpc` raises immediately with the
state untouched and no POST issued. -/
theorem rpc_eq_not_connected (s : ClientState) (rid method : String) (params : Option Json)
    (env : RpcEnv) (h : s.write_url = none) :
    rpc s rid method params env =
      { result := Except.error RpcError.notConnected, state := s, posts := [] } := by
  unfold rpc
  rw [h]

/-- The transport-error branch of the connected body. -/
theorem rpc_connected_transport (s : ClientState) (url rid method : String)
    (params : Option Json) (env : RpcEnv) (h : 400 ≤ env.postStatus) :
    rpc_connected s url rid method params env =
      { result := Except.error (RpcError.transportError env.postStatus env.postText),
        state := registeredState s rid,
        posts := [(url, rpcPayload rid method params)] } := by
  unfold rpc_connected
  rw [if_pos h]

/-- The timeout branch of the connected body. -/
theorem rpc_connected_timeout (s : ClientState) (url rid method : String)
    (params : Option Json) (env : RpcEnv) (h : ¬ 400 ≤ env.postStatus)
    (hr : env.response = none) :
    rpc_connected s url rid method params env =
      { result := Except.error (RpcError.rpcTimeout method),
        state := timedOutState s rid,
        posts := [(url, rpcPayload rid method params)] } := by
  unfold rpc_connected
  rw [if_neg h, hr]

/-- The delivered branch of the connected body. -/
theorem rpc_connected_deliver (s : ClientState) (url rid method : String)
    (params : Option Json) (env : RpcEnv) (resp : Json) (h : ¬ 400 ≤ env.postStatus)
    (hr : env.response = some resp) :
    rpc_connected s url rid method params env = rpc_deliver s url rid method params resp := by
  unfold rpc_connected
  rw [if_neg h, hr]

/-- The remote-error tail of a delivered response. -/
theorem rpc_deliver_remote (s : ClientState) (url rid method : String) (params : Option Json)
    (resp err : Json) (he : resp.lookupKey "error" = some err) :
    rpc_deliver s url rid method params resp =
      { result := Except.error (RpcError.remoteError err),
        state := resolvedState s rid resp,
        posts := [(url, rpcPayload rid method params)] } := by
  unfold rpc_deliver
  rw [he]

/-- The success tail of a delivered response. -/
theorem rpc_deliver_ok (s : ClientState) (url rid method : String) (params : Option Json)
    (resp : Json) (he : resp.lookupKey "error" = none) :
    rpc_deliver s url rid method params resp =
      { result := Except.ok resp,
        state := resolvedState s rid resp,
        posts := [(url, rpcPayload rid method params)] } := by
  unfold rpc_deliver
  rw [he]

/-- C10: invoking `_rpc` — and hence every wrapper built on it — while the
write endpoint is still undiscovered raises `MCPClientError` immediately:
the state (in particular the pending table) is untouched and no HTTP POST
is issued. -/
theorem rpc_requires_write_url (s : ClientState) (rid method : String) (params : Option Json)
    (env : RpcEnv) (name query pv cn cv : String) (arguments : Json)
    (h : s.write_url = none) :
    (rpc s rid method params env).result = Except.error RpcError.notConnected
    ∧ (rpc s rid method params env).state = s
    ∧ (rpc s rid method params env).posts = []
    ∧ (list_tools s rid env).1 = Except.error RpcError.notConnected
    ∧ (call_tool s rid name arguments env).1 = Except.error RpcError.notConnected
    ∧ (search s rid query env).1 = Except.error RpcError.notConnected
    ∧ (initialize_rpc s rid pv cn cv env).result = Except.error RpcError.notConnected := by
  refine ⟨?_, ?_, ?_, ?_, ?_, ?_, ?_⟩
  · rw [rpc_eq_not_connected s rid method params env h]
  · rw [rpc_eq_not_connected s rid method params env h]
  · rw [rpc_eq_not_connected s rid method params env h]
  · simp [list_tools, rpc_eq_not_connected s rid "tools/list" (some (Json.obj [])) env h]
  · simp [call_tool,
      rpc_eq_not_connected s rid "tools/call"
        (some (Json.obj [( "name", Json.str name), ( "arguments", arguments)])) env h]
  · simp [search, call_tool,
      rpc_eq_not_connected s rid "tools/call"
        (some (Json.obj [( "name", Json.str "search"),
          ( "arguments", Json.obj [( "query", Json.str query)])])) env h]
  · simp [initialize_rpc,
      rpc_eq_not_connected s rid "initialize"
        (some (Json.obj [( "protocolVersion", Json.str pv), ( "capabilities", Json.obj []),
          ( "client", Json.obj [( "name", Json.str cn), ( "version", Json.str cv)])])) env h]

/-- Witness for C10 on a freshly constructed, unconnected client. -/
theorem rpc_requires_write_url_witness :
    (rpc (ClientState.mk "https://host/sse" none none [] []) "r1" "tools/list" none
        (RpcEnv.mk 200 "" none)).result = Except.error RpcError.notConnected
    ∧ (rpc (ClientState.mk "https://host/sse" none none [] []) "r1" "tools/list" none
        (RpcEnv.mk 200 "" none)).state = ClientState.mk "https://host/sse" none none [] []
    ∧ (rpc (ClientState.mk "https://host/sse" none none [] []) "r1" "tools/list" none
        (RpcEnv.mk 200 "" none)).posts = [] :=
  ⟨(rpc_requires_write_url (ClientState.mk "https://host/sse" none none [] [])
      "r1" "tools/list" none (RpcEnv.mk 200 "" none) "t" "q" "p" "c" "v" Json.null rfl).1,
   (rpc_requires_write_url (ClientState.mk "https://host/sse" none none [] [])
      "r1" "tools/list" none (RpcEnv.mk 200 "" none) "t" "q" "p" "c" "v" Json.null rfl).2.1,
   (rpc_requires_write_url (ClientState.mk "https://host/sse" none none [] [])
      "r1" "tools/list" none (RpcEnv.mk 200 "" none) "t" "q" "p" "c" "v" Json.null rfl).2.2.1⟩

/-- C9: when the POST returns status 400 or greater, `_rpc` raises the
transport error before waiting on the completion signal — no waiter is
signalled — and the entry it registered for the correlation id of the call
remains in the pending table. -/
theorem transport_error_keeps_pending (s : ClientState) (url rid method : String)
    (params : Option Json) (env : RpcEnv)
    (hconn : s.write_url = some url) (hstatus : 400 ≤ env.postStatus)
    (hfresh : countId s.pending rid = 0) :
    (rpc s rid method params env).result
        = Except.error (RpcError.transportError env.postStatus env.postText)
    ∧ countId (rpc s rid method params env).state.pending rid = 1
    ∧ (rpc s rid method params env).state.signals = s.signals := by
  rw [rpc_eq_connected s url rid method params env hconn,
      rpc_connected_transport s url rid method params env hstatus]
  refine ⟨rfl, ?_, rfl⟩
  exact countId_dictInsert_fresh s.pending rid (Holder.mk none) hfresh

/-- Witness for C9 at a concrete failing POST. -/
theorem transport_error_keeps_pending_witness :
    (rpc (ClientState.mk "https://host/sse" none (some "https://host/w") [] [])
        "r1" "tools/list" none (RpcEnv.mk 503 "boom" none)).result
      = Except.error (RpcError.transportError 503 "boom")
    ∧ countId (rpc (ClientState.mk "https://host/sse" none (some "https://host/w") [] [])
        "r1" "tools/list" none (RpcEnv.mk 503 "boom" none)).state.pending "r1" = 1
    ∧ (rpc (ClientState.mk "https://host/sse" none (some "https://host/w") [] [])
        "r1" "tools/list" none (RpcEnv.mk 503 "boom" none)).state.signals = [] :=
  transport_error_keeps_pending
    (ClientState.mk "https://host/sse" none (some "https://host/w") [] [])
    "https://host/w" "r1" "tools/list" none (RpcEnv.mk 503 "boom" none)
    rfl (by decide) rfl

/-- C4: on a connected client, `_rpc` fails with the transport error exactly
when the POST status is 400 or greater; with the timeout error when the POST
succeeded but no correlated response arrived in time; with the remote error
carrying the `error` payload of the response when the correlated response has
one; and in the one remaining case — correlated response with no `error`
field — it returns normally. -/
theorem rpc_error_taxonomy (s : ClientState) (url rid method : String) (params : Option Json)
    (env : RpcEnv) (hconn : s.write_url = some url) :
    (400 ≤ env.postStatus →
        (rpc s rid method params env).result
          = Except.error (RpcError.transportError env.postStatus env.postText))
    ∧ (env.postStatus < 400 → env.response = none →
        (rpc s rid method params env).result = Except.error (RpcError.rpcTimeout method))
    ∧ (∀ resp err, env.postStatus < 400 → env.response = some resp →
        resp.lookupKey "error" = some err →
        (rpc s rid method params env).result = Except.error (RpcError.remoteError err))
    ∧ (∀ resp, env.postStatus < 400 → env.response = some resp →
        resp.lookupKey "error" = none →
        (rpc s rid method params env).result = Except.ok resp) := by
  rw [rpc_eq_connected s url rid method params env hconn]
  refine ⟨fun h => ?_, fun h hr => ?_, fun resp err h hr he => ?_, fun resp h hr he => ?_⟩
  · rw [rpc_connected_transport s url rid method params env h]
  · rw [rpc_connected_timeout s url rid method params env (by omega) hr]
  · rw [rpc_connected_deliver s url rid method params env resp (by omega) hr,
        rpc_deliver_remote s url rid method params resp err he]
  · rw [rpc_connected_deliver s url rid method params env resp (by omega) hr,
        rpc_deliver_ok s url rid method params resp he]

/-- Witness for C4: the four outcomes at concrete environments, the remote
error carrying code -32601 and message "not found". -/
theorem rpc_error_taxonomy_witness :
    (rpc (ClientState.mk "https://host/sse" none (some "https://host/w") [] [])
        "r1" "m" none (RpcEnv.mk 500 "oops" none)).result
      = Except.error (RpcError.transportError 500 "oops")
    ∧ (rpc (ClientState.mk "https://host/sse" none (some "https://host/w") [] [])
        "r1" "m" none (RpcEnv.mk 202 "" none)).result
      = Except.error (RpcError.rpcTimeout "m")
    ∧ (rpc (ClientState.mk "https://host/sse" none (some "https://host/w") [] [])
        "r1" "m" none (RpcEnv.mk 202 ""
          (some (Json.obj [( "id", Json.str "r1"),
            ( "error", Json.obj [( "code", Json.num (-32601)),
              ( "message", Json.str "not found")])])))).result
      = Except.error (RpcError.remoteError
          (Json.obj [( "code", Json.num (-32601)), ( "message", Json.str "not found")]))
    ∧ (rpc (ClientState.mk "https://host/sse" none (some "https://host/w") [] [])
        "r1" "m" none (RpcEnv.mk 202 ""
          (some (Json.obj [( "id", Json.str "r1"),
            ( "result", Json.obj [( "tools", Json.arr [])])])))).result
      = Except.ok (Json.obj [( "id", Json.str "r1"),
          ( "result", Json.obj [( "tools", Json.arr [])])]) :=
  ⟨(rpc_error_taxonomy (ClientState.mk "https://host/sse" none (some "https://host/w") [] [])
      "https://host/w" "r1" "m" none (RpcEnv.mk 500 "oops" none) rfl).1 (by decide),
   (rpc_error_taxonomy (ClientState.mk "https://host/sse" none (some "https://host/w") [] [])
      "https://host/w" "r1" "m" none (RpcEnv.mk 202 "" none) rfl).2.1 (by decide) rfl,
   (rpc_error_taxonomy (ClientState.mk "https://host/sse" none (some "https://host/w") [] [])
      "https://host/w" "r1" "m" none (RpcEnv.mk 202 ""
        (some (Json.obj [( "id", Json.str "r1"),
          ( "error", Json.obj [( "code", Json.num (-32601)),
            ( "message", Json.str "not found")])])))
      rfl).2.2.1
      (Json.obj [( "id", Json.str "r1"),
        ( "error", Json.obj [( "code", Json.num (-32601)), ( "message", Json.str "not found")])])
      (Json.obj [( "code", Json.num (-32601)), ( "message", Json.str "not found")])
      (by decide) rfl rfl,
   (rpc_error_taxonomy (ClientState.mk "https://host/sse" none (some "https://host/w") [] [])
      "https://host/w" "r1" "m" none (RpcEnv.mk 202 ""
        (some (Json.obj [( "id", Json.str "r1"),
          ( "result", Json.obj [( "tools", Json.arr [])])])))
      rfl).2.2.2
      (Json.obj [( "id", Json.str "r1"), ( "result", Json.obj [( "tools", Json.arr [])])])
      (by decide) rfl rfl⟩

/-- C5: if the stream delivers no endpoint-discovery event within the
handshake window, `connect` fails with the handshake timeout; if the
endpoint is discovered strictly within the window, `connect` returns
normally with the qualified write endpoint recorded, and a subsequent call
in any benign environment succeeds. -/
theorem connect_handshake (s : ClientState) (ht : Nat) (env : ConnectEnv) :
    ((∀ t e, env.endpointEvent = some (t, e) → ht ≤ t) →
        connect s ht env = Except.error ConnectError.handshakeTimeout)
    ∧ (∀ t e, env.endpointEvent = some (t, e) → t < ht →
        ∃ s2, connect s ht env = Except.ok s2
          ∧ s2.write_url = some (qualify_endpoint s.base_sse_url s.function_key e)
          ∧ ∀ (rid method : String) (params : Option Json) (renv : RpcEnv) (resp : Json),
              renv.postStatus < 400 → renv.response = some resp →
              resp.lookupKey "error" = none →
              (rpc s2 rid method params renv).result = Except.ok resp) := by
  constructor
  · intro h
    unfold connect
    cases hev : env.endpointEvent with
    | none => rfl
    | some te =>
        rcases te with ⟨t, e⟩
        have hnlt : ¬ t < ht := by
          have := h t e hev
          omega
        simp [hnlt]
  · intro t e hev hlt
    unfold connect
    rw [hev]
    refine ⟨{ s with write_url := some (qualify_endpoint s.base_sse_url s.function_key e) },
      ?_, rfl, ?_⟩
    · simp [hlt]
    intro rid method params renv resp hok hresp hnoerr
    rw [rpc_eq_connected
          { s with write_url := some (qualify_endpoint s.base_sse_url s.function_key e) }
          (qualify_endpoint s.base_sse_url s.function_key e) rid method params renv rfl,
        rpc_connected_deliver
          { s with write_url := some (qualify_endpoint s.base_sse_url s.function_key e) }
          (qualify_endpoint s.base_sse_url s.function_key e) rid method params renv resp
          (by omega) hresp,
        rpc_deliver_ok
          { s with write_url := some (qualify_endpoint s.base_sse_url s.function_key e) }
          (qualify_endpoint s.base_sse_url s.function_key e) rid method params resp hnoerr]

/-- Witness for C5: a discovery at time 7 misses a 5-unit window and the
handshake times out; a discovery at time 1 lands inside it, the endpoint is
recorded, and a subsequent call can succeed. -/
theorem connect_handshake_witness :
    connect (ClientState.mk "https://host/sse?code=ABC" none none [] []) 5
        (ConnectEnv.mk (some (7, "/messages"))) = Except.error ConnectError.handshakeTimeout
    ∧ (∃ s2, connect (ClientState.mk "https://host/sse?code=ABC" none none [] []) 5
          (ConnectEnv.mk (some (1, "/messages"))) = Except.ok s2
        ∧ s2.write_url = some (qualify_endpoint "https://host/sse?code=ABC" none "/messages")
        ∧ ∀ (rid method : String) (params : Option Json) (renv : RpcEnv) (resp : Json),
            renv.postStatus < 400 → renv.response = some resp →
            resp.lookupKey "error" = none →
            (rpc s2 rid method params renv).result = Except.ok resp) :=
  ⟨(connect_handshake (ClientState.mk "https://host/sse?code=ABC" none none [] []) 5
      (ConnectEnv.mk (some (7, "/messages")))).1
      (by
        rintro t e h
        simp at h
        omega),
   (connect_handshake (ClientState.mk "https://host/sse?code=ABC" none none [] []) 5
      (ConnectEnv.mk (some (1, "/messages")))).2 1 "/messages" rfl (by decide)⟩

/-- C1 counterexample: on a successful `call("tools/list", ...)` with an
injected matching response whose `result` is the tools object, `_rpc`
returns the whole response object, which is not the `result`
field of the response — refuting the claim that the value returned by `_rpc` is the
`result` field. -/
theorem rpc_result_field_counterexample :
    (rpc (ClientState.mk "https://host/sse" none (some "https://host/w") [] [])
        "r1" "tools/list" (some (Json.obj []))
        (RpcEnv.mk 202 "" (some (Json.obj [( "jsonrpc", Json.str "2.0"),
          ( "id", Json.str "r1"),
          ( "result", Json.obj [( "tools", Json.arr [])])])))).result
      = Except.ok (Json.obj [( "jsonrpc", Json.str "2.0"), ( "id", Json.str "r1"),
          ( "result", Json.obj [( "tools", Json.arr [])])])
    ∧ (Json.obj [( "jsonrpc", Json.str "2.0"), ( "id", Json.str "r1"),
          ( "result", Json.obj [( "tools", Json.arr [])])]).lookupKey "result"
      = some (Json.obj [( "tools", Json.arr [])])
    ∧ (rpc (ClientState.mk "https://host/sse" none (some "https://host/w") [] [])
        "r1" "tools/list" (some (Json.obj []))
        (RpcEnv.mk 202 "" (some (Json.obj [( "jsonrpc", Json.str "2.0"),
          ( "id", Json.str "r1"),
          ( "result", Json.obj [( "tools", Json.arr [])])])))).result
      ≠ Except.ok (Json.obj [( "tools", Json.arr [])]) := by
  refine ⟨rfl, rfl, fun hc => ?_⟩
  rw [show (rpc (ClientState.mk "https://host/sse" none (some "https://host/w") [] [])
        "r1" "tools/list" (some (Json.obj []))
        (RpcEnv.mk 202 "" (some (Json.obj [( "jsonrpc", Json.str "2.0"),
          ( "id", Json.str "r1"),
          ( "result", Json.obj [( "tools", Json.arr [])])])))).result
      = Except.ok (Json.obj [( "jsonrpc", Json.str "2.0"), ( "id", Json.str "r1"),
          ( "result", Json.obj [( "tools", Json.arr [])])]) from rfl] at hc
  injection hc with h1
  injection h1 with h2
  injection h2 with h3 h4
  injection h3 with h5 h6
  exact absurd h5 (by decide)

/-- C1 (amended): on a successful call, `_rpc` returns the entire correlated
response object, not its `result` field; the `tools` payload of
`call("tools/list", ...)` is produced by `list_tools`, which extracts
`result.tools` from that returned response. -/
theorem rpc_ok_returns_whole_response (s : ClientState) (url rid : String) (env : RpcEnv)
    (resp tools : Json)
    (hconn : s.write_url = some url) (hok : env.postStatus < 400)
    (hresp : env.response = some resp)
    (hnoerr : resp.lookupKey "error" = none)
    (hresult : resp.lookupKey "result" = some (Json.obj [( "tools", tools)])) :
    (rpc s rid "tools/list" (some (Json.obj [])) env).result = Except.ok resp
    ∧ (list_tools s rid env).1 = Except.ok tools := by
  have h1 : (rpc s rid "tools/list" (some (Json.obj [])) env).result = Except.ok resp := by
    rw [rpc_eq_connected s url rid "tools/list" (some (Json.obj [])) env hconn,
        rpc_connected_deliver s url rid "tools/list" (some (Json.obj [])) env resp
          (by omega) hresp,
        rpc_deliver_ok s url rid "tools/list" (some (Json.obj [])) resp hnoerr]
  refine ⟨h1, ?_⟩
  simp only [list_tools]
  rw [h1]
  show Except.ok ((resp.getD "result" (Json.obj [])).getD "tools" (Json.arr []))
      = Except.ok tools
  rw [show resp.getD "result" (Json.obj []) = Json.obj [( "tools", tools)] from by
        unfold Json.getD
        rw [hresult]]
  simp [Json.getD, Json.lookupKey, List.lookup]

/-- Witness for the amended C1 at the concrete round-trip response. -/
theorem rpc_ok_returns_whole_response_witness :
    (rpc (ClientState.mk "https://host/sse" none (some "https://host/w") [] [])
        "r1" "tools/list" (some (Json.obj []))
        (RpcEnv.mk 202 "" (some (Json.obj [( "jsonrpc", Json.str "2.0"),
          ( "id", Json.str "r1"),
          ( "result", Json.obj [( "tools", Json.arr [])])])))).result
      = Except.ok (Json.obj [( "jsonrpc", Json.str "2.0"), ( "id", Json.str "r1"),
          ( "result", Json.obj [( "tools", Json.arr [])])])
    ∧ (list_tools (ClientState.mk "https://host/sse" none (some "https://host/w") [] [])
        "r1"
        (RpcEnv.mk 202 "" (some (Json.obj [( "jsonrpc", Json.str "2.0"),
          ( "id", Json.str "r1"),
          ( "result", Json.obj [( "tools", Json.arr [])])])))).1
      = Except.ok (Json.arr []) :=
  rpc_ok_returns_whole_response
    (ClientState.mk "https://host/sse" none (some "https://host/w") [] [])
    "https://host/w" "r1"
    (RpcEnv.mk 202 "" (some (Json.obj [( "jsonrpc", Json.str "2.0"),
      ( "id", Json.str "r1"), ( "result", Json.obj [( "tools", Json.arr [])])])))
    (Json.obj [( "jsonrpc", Json.str "2.0"), ( "id", Json.str "r1"),
      ( "result", Json.obj [( "tools", Json.arr [])])])
    (Json.arr [])
    rfl (by decide) rfl rfl rfl

/-- Any single action other than issuing `rid` or one that may resolve
`rid` leaves the entry count of `rid` unchanged. -/
theorem countId_step_preserved (s : ClientState) (rid : String) (a : ClientAction)
    (h1 : mayResolve a rid = false) (h2 : a ≠ ClientAction.issue rid) :
    countId (step s a).pending rid = countId s.pending rid := by
  cases a with
  | issue k =>
      have hk : k ≠ rid := by
        intro hh
        exact h2 (by rw [hh])
      exact countId_dictInsert_ne s.pending k (Holder.mk none) rid hk
  | timeoutPop k =>
      have hk : k ≠ rid := by simpa [mayResolve] using h1
      exact countId_dictPop_ne s.pending k rid hk
  | sse e =>
      show countId (handle_sse_event s e.event e.data e.parsed).pending rid
          = countId s.pending rid
      rcases handle_effect s e.event e.data e.parsed with ⟨hp, _⟩ | ⟨r, obj, hpe, hid, hsome, hp, _⟩
      · rw [hp]
      · have hr : r ≠ rid := by
          simpa [mayResolve, hpe, hid, jsonIdKey] using h1
        rw [hp]
        exact countId_dictPop_ne s.pending r rid hr

/-- A trace of actions none of which issues or may resolve `rid` leaves the
entry count of `rid` unchanged. -/
theorem countId_steps_preserved (rid : String) (tr : List ClientAction)
    (htr : ∀ a ∈ tr, mayResolve a rid = false ∧ a ≠ ClientAction.issue rid) :
    ∀ s : ClientState, countId (steps s tr).pending rid = countId s.pending rid := by
  induction tr with
  | nil => intro s; rfl
  | cons a tr ih =>
      intro s
      have hmem := htr a (List.mem_cons_self a tr)
      have htr2 : ∀ b ∈ tr, mayResolve b rid = false ∧ b ≠ ClientAction.issue rid :=
        fun b hb => htr b (List.mem_cons_of_mem a hb)
      show countId (steps (step s a) tr).pending rid = countId s.pending rid
      rw [ih htr2 (step s a), countId_step_preserved s rid a hmem.1 hmem.2]

/-- C3: lifecycle of a Pending Request.  (1) Issuing a call under a fresh
correlation id creates exactly one entry, and the entry survives every later
action that neither times the call out nor delivers a response for that id.
(2) The timeout removal by the caller leaves no entry for the id.  (3) A
dispatched response correlated to the id (outside the discovery branches)
leaves no entry for the id.  (4) Once the id is absent, the timeout removal
and any correlated response are no-ops on the table — the entry is removed
by whichever of the two comes first, never by both. -/
theorem pending_request_lifecycle :
    (∀ (s : ClientState) (rid : String) (tr : List ClientAction),
        countId s.pending rid = 0 →
        (∀ a ∈ tr, mayResolve a rid = false ∧ a ≠ ClientAction.issue rid) →
        countId (steps (step s (ClientAction.issue rid)) tr).pending rid = 1)
    ∧ (∀ (s : ClientState) (rid : String),
        countId (step s (ClientAction.timeoutPop rid)).pending rid = 0)
    ∧ (∀ (s : ClientState) (rid : String) (e : SSEEvent) (obj : Json),
        e.parsed = some obj → obj.lookupKey "id" = some (Json.str rid) →
        isBareEndpoint s e.event e.data = false →
        (s.write_url = none → endpointStrValue obj = none) →
        countId (step s (ClientAction.sse e)).pending rid = 0)
    ∧ (∀ (s : ClientState) (rid : String) (a : ClientAction),
        countId s.pending rid = 0 → mayResolve a rid = true →
        (step s a).pending = s.pending) := by
  refine ⟨?_, ?_, ?_, ?_⟩
  · intro s rid tr h0 htr
    rw [countId_steps_preserved rid tr htr (step s (ClientAction.issue rid))]
    show countId (dictInsert s.pending rid (Holder.mk none)) rid = 1
    exact countId_dictInsert_fresh s.pending rid (Holder.mk none) h0
  · intro s rid
    show countId (dictPop s.pending rid).2 rid = 0
    exact countId_dictPop_self s.pending rid
  · intro s rid e obj hpe hid hbare hep
    show countId (handle_sse_event s e.event e.data e.parsed).pending rid = 0
    rw [hpe, handle_eq_dispatch s e.event e.data obj hbare hep]
    rcases dispatch_response_pops s obj rid hid with hp | ⟨hp, hl⟩
    · rw [hp]
      exact countId_dictPop_self s.pending rid
    · rw [hp]
      exact countId_zero_of_lookup_none s.pending rid hl
  · intro s rid a h0 hres
    cases a with
    | issue k => simp [mayResolve] at hres
    | timeoutPop k =>
        have hk : k = rid := by simpa [mayResolve] using hres
        subst hk
        show (dictPop s.pending k).2 = s.pending
        exact dictPop_snd_of_absent s.pending k h0
    | sse e =>
        show (handle_sse_event s e.event e.data e.parsed).pending = s.pending
        rcases handle_effect s e.event e.data e.parsed with ⟨hp, _⟩ | ⟨r, obj, hpe, hid, hsome, hp, _⟩
        · exact hp
        · exfalso
          have hr : r = rid := by
            simpa [mayResolve, hpe, hid, jsonIdKey] using hres
          rw [hr, lookup_eq_none_of_absent s.pending rid h0] at hsome
          simp at hsome

/-- Witness for C3: the four lifecycle facts at concrete states — a fresh
issue surviving an unrelated response, removal by timeout, removal by a
correlated response, and the no-op of a late removal on an absent id. -/
theorem pending_request_lifecycle_witness :
    countId (steps
        (step (ClientState.mk "https://host/sse" none (some "https://host/w") [] [])
          (ClientAction.issue "r1"))
        [ClientAction.sse (SSEEvent.mk none "z"
          (some (Json.obj [( "id", Json.str "other")])))]).pending "r1" = 1
    ∧ countId (step (ClientState.mk "https://host/sse" none (some "https://host/w")
        [( "r1", Holder.mk none)] []) (ClientAction.timeoutPop "r1")).pending "r1" = 0
    ∧ countId (step (ClientState.mk "https://host/sse" none (some "https://host/w")
        [( "r1", Holder.mk none)] [])
        (ClientAction.sse (SSEEvent.mk none "z"
          (some (Json.obj [( "id", Json.str "r1")]))))).pending "r1" = 0
    ∧ (step (ClientState.mk "https://host/sse" none (some "https://host/w") [] [])
        (ClientAction.timeoutPop "r1")).pending
      = (ClientState.mk "https://host/sse" none (some "https://host/w") [] []).pending :=
  ⟨pending_request_lifecycle.1
      (ClientState.mk "https://host/sse" none (some "https://host/w") [] []) "r1"
      [ClientAction.sse (SSEEvent.mk none "z" (some (Json.obj [( "id", Json.str "other")])))]
      rfl
      (by
        intro a ha
        rw [List.mem_singleton] at ha
        subst ha
        exact ⟨rfl, fun hh => ClientAction.noConfusion hh⟩),
   pending_request_lifecycle.2.1
      (ClientState.mk "https://host/sse" none (some "https://host/w")
        [( "r1", Holder.mk none)] []) "r1",
   pending_request_lifecycle.2.2.1
      (ClientState.mk "https://host/sse" none (some "https://host/w")
        [( "r1", Holder.mk none)] []) "r1"
      (SSEEvent.mk none "z" (some (Json.obj [( "id", Json.str "r1")])))
      (Json.obj [( "id", Json.str "r1")]) rfl rfl rfl
      (fun hh => Option.noConfusion hh),
   pending_request_lifecycle.2.2.2
      (ClientState.mk "https://host/sse" none (some "https://host/w") [] []) "r1"
      (ClientAction.timeoutPop "r1") rfl rfl⟩
